import Mathlib

/-!
Shallow embedding of the trivia backend (`backend/flaskr/__init__.py` and
`backend/models.py`): the data model, the pagination helper, and the six
request handlers, together with theorems about their behaviour.

Conventions of the embedding:
* the database is a pure value (`DB`) holding the `questions` and
  `categories` tables as lists; SQLAlchemy queries become list operations
  (`order_by` becomes a sort by id, `filter` becomes `List.filter`,
  `Query.get` / `one_or_none` become lookups);
* `random.randint(0, maxlen)` is modelled by passing the drawn number in as
  an explicit `draw : Nat` argument (the handler uses it only when the
  Python code would call the generator);
* an HTTP error response `{success: false, error: code, ...}` is modelled
  by an `err code` constructor; `abort(n)` inside a handler followed by
  `handle_exception` re-raising yields exactly `err n`, and a non-HTTP
  exception yields `err 500`;
* Python's slice `l[a:b]` on integers is modelled by `pySlice`, including
  its negative-index semantics.
-/

/-- A row of the `questions` table (`models.py`, class `Question`). -/
structure Question where
  id : Int
  question : String
  answer : String
  difficulty : Int
  category : Int
deriving Repr, DecidableEq, Inhabited

/-- A row of the `categories` table (`models.py`, class `Category`). -/
structure Category where
  id : Int
  type : String
deriving Repr, DecidableEq, Inhabited

/-- The formatted question record `{id, question, answer, difficulty,
category}` produced by `Question.format()`. -/
structure QuestionRec where
  id : Int
  question : String
  answer : String
  difficulty : Int
  category : Int
deriving Repr, DecidableEq, Inhabited

/-- `Question.format()` from `models.py`. -/
def Question.format (q : Question) : QuestionRec :=
  { id := q.id, question := q.question, answer := q.answer,
    difficulty := q.difficulty, category := q.category }

/-- The database state: the two tables, in storage order. -/
structure DB where
  questions : List Question
  categories : List Category
deriving Repr, DecidableEq

/-- Insert an element into a list sorted by an integer key. -/
def insertByKey (key : α → Int) (a : α) : List α → List α
  | [] => [a]
  | x :: xs => if key a ≤ key x then a :: x :: xs else x :: insertByKey key a xs

/-- `order_by(id)`: sort a table by an integer key (insertion sort). -/
def sortByKey (key : α → Int) : List α → List α
  | [] => []
  | x :: xs => insertByKey key x (sortByKey key xs)

/-- `format_categories`: the dictionary `{category.id: category.type}`,
modelled as an association list in the order of the input. -/
def format_categories (cs : List Category) : List (Int × String) :=
  cs.map (fun c => (c.id, c.type))

/-- Resolve one bound of a Python slice `l[a:b]` for a list of length `n`:
a negative index counts from the end (clamped below by 0), a non-negative
one is clamped above by `n`. -/
def pyResolve (n : Nat) (i : Int) : Nat :=
  if i < 0 then (i + n).toNat else min i.toNat n

/-- Python's slice `l[a:b]` for integer bounds. -/
def pySlice (l : List α) (a b : Int) : List α :=
  (l.take (pyResolve l.length b)).drop (pyResolve l.length a)

def QUESTIONS_PER_PAGE : Int := 10

/-- `paginate_questions` (`__init__.py` lines 37-45): format all questions
and return the Python slice `[(page-1)*10 : (page-1)*10+10]`.  The `page`
request argument is passed in already parsed (Flask's
`args.get('page', 1, type=int)` supplies `1` when absent or non-numeric). -/
def paginate_questions (page : Int) (questions : List Question) : List QuestionRec :=
  let start := (page - 1) * QUESTIONS_PER_PAGE
  let stop := start + QUESTIONS_PER_PAGE
  pySlice (questions.map Question.format) start stop

/-- Response of the "list questions" shape (`retrieve_questions`): either
the success payload or an error response with its HTTP code. -/
inductive ListQResponse where
  | ok (questions : List QuestionRec) (total_questions : Nat)
       (categories : List (Int × String)) (currentCategory : String)
  | err (code : Nat)
deriving Repr, DecidableEq

/-- `retrieve_questions` (`__init__.py` lines 67-89).  `catDraw` is the
value drawn by `random.randint(0, len(categories) - 1)` for the cosmetic
`currentCategory` field; an out-of-range draw (which the generator never
produces) would be a Python `IndexError`, hence `err 500`. -/
def retrieve_questions (db : DB) (page : Int) (catDraw : Nat) : ListQResponse :=
  let questions := sortByKey Question.id db.questions
  let current_questions := paginate_questions page questions
  if current_questions.length = 0 then .err 404
  else
    let categories := sortByKey Category.id db.categories
    if categories.length = 0 then .err 404
    else
      match categories[catDraw]? with
      | some c => .ok current_questions questions.length (format_categories categories) c.type
      | none => .err 500

/-- `remove_question` (`__init__.py` lines 92-104): look the question up
with `filter_by(id=...).one_or_none()` (`one_or_none` raises on more than
one match, which `handle_exception` turns into a 500), delete it, then
answer with `retrieve_questions()` on the same request.  Returns the
response together with the database state after the handler. -/
def remove_question (db : DB) (question_id : Int) (page : Int) (catDraw : Nat) :
    ListQResponse × DB :=
  match db.questions.filter (fun q => q.id == question_id) with
  | [] => (.err 404, db)
  | [_] =>
      let db2 : DB := { db with questions := db.questions.eraseP (fun q => q.id == question_id) }
      (retrieve_questions db2 page catDraw, db2)
  | _ => (.err 500, db)

/-- The JSON body of `POST /questions`; `none` models an absent key
(`body.get(..., None)`). -/
structure CreateBody where
  question : Option String
  answer : Option String
  difficulty : Option Int
  category : Option Int
  searchTerm : Option String
deriving Repr, DecidableEq

/-- Python truthiness of an optional string: `None` and `''` are falsy. -/
def truthyStr : Option String → Bool
  | none => false
  | some s => !(s == "")

/-- Case-insensitive substring test, modelling SQL `ilike '%term%'`. -/
def containsCI (hay needle : String) : Bool :=
  decide (needle.toLower.toList <:+: hay.toLower.toList)

/-- Response of `POST /questions`: the search shape (no `categories`
field, `currentCategory: null`), the "list questions" shape after an
insert, or an error. -/
inductive CreateResponse where
  | search (questions : List QuestionRec) (total_questions : Nat)
  | listed (r : ListQResponse)
  | err (code : Nat)
deriving Repr, DecidableEq

/-- `create_question` (`__init__.py` lines 109-136).  `freshId` is the
primary key the storage engine assigns to the inserted row; inserting with
a `None` difficulty or category violates the columns' `nullable=False`
constraint, which surfaces as a 500.  Returns the response together with
the database state after the handler. -/
def create_question (db : DB) (body : CreateBody) (page : Int) (catDraw : Nat)
    (freshId : Int) : CreateResponse × DB :=
  if truthyStr body.searchTerm then
    let term := body.searchTerm.getD ""
    let questions := db.questions.filter (fun q => containsCI q.question term)
    (.search (paginate_questions page questions) questions.length, db)
  else if body.question = none ∨ body.answer = none ∨
          body.question = some "" ∨ body.answer = some "" then
    (.err 422, db)
  else
    match body.difficulty, body.category with
    | some d, some c =>
        let q : Question := { id := freshId, question := body.question.getD "",
                              answer := body.answer.getD "", difficulty := d, category := c }
        let db2 : DB := { db with questions := db.questions ++ [q] }
        (.listed (retrieve_questions db2 page catDraw), db2)
    | _, _ => (.err 500, db)

/-- Response of `GET /categories/{id}/questions`. -/
inductive CatQResponse where
  | ok (questions : List QuestionRec) (total_questions : Nat) (currentCategory : String)
  | err (code : Nat)
deriving Repr, DecidableEq

/-- `retrieve_specific_category_questions` (`__init__.py` lines 141-158).
The source also tests `questions is None`, but `Query.all()` always
returns a list, so only the category lookup can trigger the 404. -/
def retrieve_specific_category_questions (db : DB) (category_id : Int) (page : Int) :
    CatQResponse :=
  let questions := sortByKey Question.id (db.questions.filter (fun q => q.category == category_id))
  match db.categories.find? (fun c => c.id == category_id) with
  | none => .err 404
  | some current_category =>
      .ok (paginate_questions page questions) questions.length current_category.type

/-- The JSON body of `POST /quizzes`; `none` in `quiz_category_id` models
a missing `quiz_category` key, a missing `id` inside it, or a value
`int()` cannot parse — each raises, giving a 500.  `none` in
`previous_questions` models a missing `previous_questions` key. -/
structure QuizBody where
  quiz_category_id : Option Int
  previous_questions : Option (List Int)
deriving Repr, DecidableEq

/-- The `question` field of a `POST /quizzes` success response: either a
formatted question record or the boolean `false`. -/
inductive QField where
  | found (q : QuestionRec)
  | falseb
deriving Repr, DecidableEq

/-- Response of `POST /quizzes`: `ok` is `{success: true, question: ...}`. -/
inductive PlayResponse where
  | ok (question : QField)
  | err (code : Nat)
deriving Repr, DecidableEq

/-- The candidate pool `questions` computed by `play_quiz` once both body
keys are present (`__init__.py` lines 167-179), with the always-true
`"previous_questions" in body` conjunct dropped. -/
def quizPool (db : DB) (cid : Int) (prev : List Int) : List Question :=
  match db.categories.find? (fun c => c.id == cid) with
  | none =>
      if prev.length > 0 then db.questions.filter (fun q => !(prev.contains q.id))
      else db.questions
  | some category =>
      if prev.length > 0 then
        db.questions.filter (fun q => !(prev.contains q.id) && q.category == category.id)
      else db.questions.filter (fun q => q.category == category.id)

/-- `play_quiz` (`__init__.py` lines 163-192).  `draw` is the value the
Python code would obtain from `random.randint(0, maxlen)`; it is consulted
only on the `maxlen > 0` branch, and a draw outside `[0, maxlen]` (which
the generator never produces) would be an `IndexError`, hence `err 500`.
A `KeyError` on `body['quiz_category']['id']` or on
`body['previous_questions']` is a non-HTTP exception, hence `err 500`. -/
def play_quiz (db : DB) (body : QuizBody) (draw : Nat) : PlayResponse :=
  match body.quiz_category_id with
  | none => .err 500
  | some category_id =>
    let category := db.categories.find? (fun c => c.id == category_id)
    match body.previous_questions with
    | none => .err 500
    | some previous_questions =>
      let questions : List Question :=
        match category with
        | none =>
            if body.previous_questions.isSome && previous_questions.length > 0 then
              db.questions.filter (fun q => !(previous_questions.contains q.id))
            else db.questions
        | some cat =>
            if body.previous_questions.isSome && previous_questions.length > 0 then
              db.questions.filter
                (fun q => !(previous_questions.contains q.id) && q.category == cat.id)
            else db.questions.filter (fun q => q.category == cat.id)
      let maxlen : Int := (questions.length : Int) - 1
      if maxlen > 0 then
        match questions[draw]? with
        | some q => .ok (.found q.format)
        | none => .err 500
      else if maxlen = 0 then
        match questions[0]? with
        | some q => .ok (.found q.format)
        | none => .err 500
      else .ok .falseb

/-- A concrete table of `n` questions with ids `0, …, n-1`, used to
instantiate theorems on concrete inputs. -/
def sampleQuestions (n : Nat) : List Question :=
  (List.range n).map
    (fun i => { id := i, question := "q", answer := "a", difficulty := 1, category := 1 })

theorem pySlice_nonneg (l : List α) (a : Int) (k : Nat) (ha : 0 ≤ a) :
    pySlice l a (a + (k : Int)) = (l.drop a.toNat).take k := by
  have h1 : ¬ (a < 0) := by omega
  have h2 : ¬ (a + (k : Int) < 0) := by omega
  have h3 : (a + (k : Int)).toNat = a.toNat + k := by omega
  simp only [pySlice, pyResolve, if_neg h1, if_neg h2, h3]
  rw [List.drop_take]
  rcases le_or_lt a.toNat l.length with hs | hs
  · rw [min_eq_left hs, List.take_eq_take]
    simp only [List.length_drop]
    omega
  · rw [min_eq_right (le_of_lt hs), min_eq_right (by omega : l.length ≤ a.toNat + k),
      List.drop_eq_nil_of_le (le_refl l.length),
      List.drop_eq_nil_of_le (le_of_lt hs)]
    simp

theorem paginate_eq_of_one_le (page : Int) (qs : List Question) (h : 1 ≤ page) :
    paginate_questions page qs
      = ((qs.map Question.format).drop ((page - 1) * 10).toNat).take 10 := by
  have h0 : 0 ≤ (page - 1) * 10 := by
    have : 0 ≤ page - 1 := by omega
    positivity
  have := pySlice_nonneg (qs.map Question.format) ((page - 1) * 10) 10 h0
  simpa [paginate_questions, QUESTIONS_PER_PAGE] using this

theorem paginate_contiguous (page : Int) (qs : List Question) :
    ∃ pre post, qs.map Question.format = pre ++ paginate_questions page qs ++ post := by
  set l := qs.map Question.format with hl
  set s := pyResolve l.length ((page - 1) * QUESTIONS_PER_PAGE) with hs
  set e := pyResolve l.length ((page - 1) * QUESTIONS_PER_PAGE + QUESTIONS_PER_PAGE) with he
  refine ⟨(l.take e).take s, l.drop e, ?_⟩
  have hpag : paginate_questions page qs = (l.take e).drop s := rfl
  rw [hpag, List.take_append_drop, List.take_append_drop]

theorem paginate_zero (qs : List Question) : paginate_questions 0 qs = [] := by
  show pySlice (qs.map Question.format) ((0 - 1) * QUESTIONS_PER_PAGE)
      ((0 - 1) * QUESTIONS_PER_PAGE + QUESTIONS_PER_PAGE) = []
  norm_num [QUESTIONS_PER_PAGE, pySlice, pyResolve]

/-- C3: for every page ≥ 1 and every list of questions,
`paginate_questions` returns exactly the contiguous slice of the formatted
items from index `(page-1)*10` up to but excluding `page*10`, hence at
most 10 items, and the empty list whenever `(page-1)*10` is at least the
length of the list. -/
theorem paginate_exact_slice (page : Int) (qs : List Question) (h : 1 ≤ page) :
    paginate_questions page qs
        = ((qs.map Question.format).drop ((page - 1) * 10).toNat).take 10
    ∧ (paginate_questions page qs).length ≤ 10
    ∧ ((qs.length : Int) ≤ (page - 1) * 10 → paginate_questions page qs = []) := by
  refine ⟨paginate_eq_of_one_le page qs h, ?_, ?_⟩
  · rw [paginate_eq_of_one_le page qs h]
    exact List.length_take_le _ _
  · intro hlen
    rw [paginate_eq_of_one_le page qs h,
      List.drop_eq_nil_of_le (by simp only [List.length_map]; omega), List.take_nil]

/-- Witness for `paginate_exact_slice`: page 2 of a 15-question table is
the 5-question slice `[10, 15)`. -/
theorem paginate_exact_slice_witness :
    (1 : Int) ≤ 2
    ∧ (paginate_questions 2 (sampleQuestions 15)
          = (((sampleQuestions 15).map Question.format).drop (((2:Int) - 1) * 10).toNat).take 10
       ∧ (paginate_questions 2 (sampleQuestions 15)).length ≤ 10
       ∧ (((sampleQuestions 15).length : Int) ≤ ((2:Int) - 1) * 10
            → paginate_questions 2 (sampleQuestions 15) = [])) :=
  ⟨by decide, paginate_exact_slice 2 (sampleQuestions 15) (by decide)⟩

/-- Counterexample to C4 as stated: for the negative page `-1` and a table
of 25 questions, `paginate_questions` follows Python's negative-index
slice semantics, returning the ten formatted questions with ids 5..14 —
a non-empty result for an out-of-range page, taken relative to the end of
the list. -/
theorem paginate_negative_page_counterexample :
    (paginate_questions (-1) (sampleQuestions 25)).map QuestionRec.id
        = [5, 6, 7, 8, 9, 10, 11, 12, 13, 14]
    ∧ paginate_questions (-1) (sampleQuestions 25) ≠ [] := by
  constructor
  · rfl
  · intro h
    have : (paginate_questions (-1) (sampleQuestions 25)).length = 10 := rfl
    rw [h] at this
    simp at this

/-- C4 (amended): for every integer page value `paginate_questions` never
errors — the result is always a well-defined contiguous sub-run of the
formatted items; for every page ≥ 1 it never indexes the list negatively
(the result is the plain drop/take slice at the non-negative offset
`(page-1)*10`) and any out-of-range page degrades to the empty result, and
page 0 also yields the empty result; for negative pages, however, Python's
negative-index slice semantics apply and the result may be non-empty. -/
theorem paginate_total_amended (page : Int) (qs : List Question) :
    (∃ pre post, qs.map Question.format = pre ++ paginate_questions page qs ++ post)
    ∧ (1 ≤ page →
        paginate_questions page qs
            = ((qs.map Question.format).drop ((page - 1) * 10).toNat).take 10
        ∧ ((qs.length : Int) ≤ (page - 1) * 10 → paginate_questions page qs = []))
    ∧ (page = 0 → paginate_questions page qs = []) := by
  refine ⟨paginate_contiguous page qs, ?_, ?_⟩
  · intro h
    refine ⟨paginate_eq_of_one_le page qs h, ?_⟩
    intro hlen
    rw [paginate_eq_of_one_le page qs h,
      List.drop_eq_nil_of_le (by simp only [List.length_map]; omega), List.take_nil]
  · intro h
    subst h
    exact paginate_zero qs

/-- Witness for `paginate_total_amended` at page 1 and page 0 on a
12-question table. -/
theorem paginate_total_amended_witness :
    ((∃ pre post, (sampleQuestions 12).map Question.format
        = pre ++ paginate_questions 1 (sampleQuestions 12) ++ post)
      ∧ ((1:Int) ≤ 1 →
          paginate_questions 1 (sampleQuestions 12)
              = (((sampleQuestions 12).map Question.format).drop (((1:Int) - 1) * 10).toNat).take 10
          ∧ (((sampleQuestions 12).length : Int) ≤ ((1:Int) - 1) * 10
              → paginate_questions 1 (sampleQuestions 12) = []))
      ∧ ((1:Int) = 0 → paginate_questions 1 (sampleQuestions 12) = []))
    ∧ paginate_questions 0 (sampleQuestions 12) = [] :=
  ⟨paginate_total_amended 1 (sampleQuestions 12),
   (paginate_total_amended 0 (sampleQuestions 12)).2.2 rfl⟩

theorem play_quiz_eq (db : DB) (cid : Int) (prev : List Int) (draw : Nat) :
    play_quiz db ⟨some cid, some prev⟩ draw =
      (if ((quizPool db cid prev).length : Int) - 1 > 0 then
        match (quizPool db cid prev)[draw]? with
        | some q => .ok (.found q.format)
        | none => .err 500
      else if ((quizPool db cid prev).length : Int) - 1 = 0 then
        match (quizPool db cid prev)[0]? with
        | some q => .ok (.found q.format)
        | none => .err 500
      else .ok .falseb) := by
  simp only [play_quiz, quizPool, Option.isSome_some, Bool.true_and, decide_eq_true_eq]

/-- A concrete database for instantiating theorems: three questions, all
in category 1, and two categories. -/
def sampleDB : DB :=
  { questions := sampleQuestions 3,
    categories := [{ id := 1, type := "Science" }, { id := 2, type := "Art" }] }

/-- C1: in `play_quiz`, for a non-empty candidate pool every admissible
random draw `d ∈ [0, n-1]` selects exactly the pool element at index `d`
(so the draw-to-candidate map is the identity bijection from `[0, n-1]`
onto the pool and a uniform draw makes each candidate equally likely);
and for a pool of exactly one question that question is returned for every
draw (the `maxlen == 0` branch does not consult the generator at all). -/
theorem play_quiz_uniform (db : DB) (cid : Int) (prev : List Int) :
    (∀ draw : Fin (quizPool db cid prev).length,
        play_quiz db ⟨some cid, some prev⟩ draw.val
          = .ok (.found ((quizPool db cid prev).get draw).format))
    ∧ ((quizPool db cid prev).length = 1 → ∀ draw : Nat,
        play_quiz db ⟨some cid, some prev⟩ draw
          = .ok (.found ((quizPool db cid prev).headI.format))) := by
  constructor
  · rintro ⟨d, hd⟩
    rw [play_quiz_eq]
    rcases Nat.lt_or_ge 1 (quizPool db cid prev).length with hn | hn
    · rw [if_pos (by omega)]
      rw [List.getElem?_eq_getElem hd]
      simp
    · have h1 : (quizPool db cid prev).length = 1 := by omega
      have hd0 : d = 0 := by omega
      subst hd0
      rw [if_neg (by omega), if_pos (by omega)]
      rw [List.getElem?_eq_getElem hd]
      simp
  · intro h1 draw
    obtain ⟨a, ha⟩ := List.length_eq_one.mp h1
    rw [play_quiz_eq, ha]
    norm_num

/-- Witness for `play_quiz_uniform`: on `sampleDB`, draw 2 over the
3-element pool of category 1 selects the question with id 2, and with the
pool reduced to the single question of id 1, any draw (here 7) returns
it. -/
theorem play_quiz_uniform_witness :
    play_quiz sampleDB ⟨some 1, some []⟩ 2
        = .ok (.found { id := 2, question := "q", answer := "a", difficulty := 1, category := 1 })
    ∧ play_quiz sampleDB ⟨some 1, some [0, 2]⟩ 7
        = .ok (.found { id := 1, question := "q", answer := "a", difficulty := 1, category := 1 }) := by
  constructor
  · have h := (play_quiz_uniform sampleDB 1 []).1 ⟨2, by decide⟩
    exact h.trans (by decide)
  · have h := (play_quiz_uniform sampleDB 1 [0, 2]).2 (by decide) 7
    exact h.trans (by decide)

theorem play_quiz_found_mem (db : DB) (cid : Int) (prev : List Int) (draw : Nat)
    (qrec : QuestionRec)
    (h : play_quiz db ⟨some cid, some prev⟩ draw = .ok (.found qrec)) :
    ∃ q ∈ quizPool db cid prev, qrec = q.format := by
  rw [play_quiz_eq] at h
  split at h
  · cases hq : (quizPool db cid prev)[draw]? with
    | none => rw [hq] at h; exact absurd h (by simp)
    | some q =>
        rw [hq] at h
        refine ⟨q, List.getElem?_mem hq, ?_⟩
        injection h with h1
        injection h1 with h2
        exact h2.symm
  · split at h
    · cases hq : (quizPool db cid prev)[0]? with
      | none => rw [hq] at h; exact absurd h (by simp)
      | some q =>
          rw [hq] at h
          refine ⟨q, List.getElem?_mem hq, ?_⟩
          injection h with h1
          injection h1 with h2
          exact h2.symm
    · exact absurd h (by simp)

theorem quizPool_mem (db : DB) (cid : Int) (prev : List Int) (q : Question)
    (hq : q ∈ quizPool db cid prev) :
    q.id ∉ prev ∧ ((∃ c ∈ db.categories, c.id = cid) → q.category = cid) := by
  unfold quizPool at hq
  cases hfind : db.categories.find? (fun c => c.id == cid) with
  | none =>
      simp only [hfind] at hq
      constructor
      · by_cases hp : prev.length > 0
        · rw [if_pos hp] at hq
          have := (List.mem_filter.mp hq).2
          simpa using this
        · have hnil : prev = [] := by
            cases prev with
            | nil => rfl
            | cons a l => simp at hp
          rw [hnil]
          simp
      · rintro ⟨c, hc, hcid⟩
        rw [List.find?_eq_none] at hfind
        exact absurd (by simpa using hcid) (by simpa using hfind c hc)
  | some cat =>
      simp only [hfind] at hq
      have hcat : cat.id = cid := by
        have := List.find?_some hfind
        simpa using this
      by_cases hp : prev.length > 0
      · rw [if_pos hp] at hq
        have hcond := (List.mem_filter.mp hq).2
        simp only [Bool.and_eq_true, Bool.not_eq_true', beq_iff_eq] at hcond
        refine ⟨?_, fun _ => ?_⟩
        · simpa using hcond.1
        · rw [hcond.2, hcat]
      · have hnil : prev = [] := by
          cases prev with
          | nil => rfl
          | cons a l => simp at hp
        subst hnil
        rw [if_neg (by simp)] at hq
        have hcond := (List.mem_filter.mp hq).2
        simp only [beq_iff_eq] at hcond
        exact ⟨by simp, fun _ => by rw [hcond, hcat]⟩

/-- C2: whenever `play_quiz` returns a question, that question's id is not
in the supplied `previous_questions` list, and if the supplied
`quiz_category` id denotes an existing category, the returned question's
`category` equals that category's id. -/
theorem play_quiz_fresh_and_in_category (db : DB) (cid : Int) (prev : List Int)
    (draw : Nat) (qrec : QuestionRec)
    (h : play_quiz db ⟨some cid, some prev⟩ draw = .ok (.found qrec)) :
    qrec.id ∉ prev ∧ ((∃ c ∈ db.categories, c.id = cid) → qrec.category = cid) := by
  obtain ⟨q, hq, hfmt⟩ := play_quiz_found_mem db cid prev draw qrec h
  have hmem := quizPool_mem db cid prev q hq
  subst hfmt
  refine ⟨?_, fun hex => ?_⟩
  · simpa [Question.format] using hmem.1
  · simpa [Question.format] using hmem.2 hex

/-- Witness for `play_quiz_fresh_and_in_category`: on `sampleDB` with
category 1 and `previous_questions = [0]`, draw 1 returns the question
with id 2, which is not in `[0]` and lies in category 1. -/
theorem play_quiz_fresh_and_in_category_witness :
    ({ id := 2, question := "q", answer := "a", difficulty := 1,
       category := 1 } : QuestionRec).id ∉ [(0 : Int)]
    ∧ ((∃ c ∈ sampleDB.categories, c.id = 1) →
        ({ id := 2, question := "q", answer := "a", difficulty := 1,
           category := 1 } : QuestionRec).category = 1) :=
  play_quiz_fresh_and_in_category sampleDB 1 [0] 1 _ (by decide)

/-- C5: when the candidate pool of `play_quiz` is empty, the response is
the success response `{success: true, question: false}` — the `question`
field holds the boolean `false` (the dedicated `falseb` value, not a
question record), and no error status is produced. -/
theorem play_quiz_exhausted_false (db : DB) (cid : Int) (prev : List Int) (draw : Nat)
    (h : quizPool db cid prev = []) :
    play_quiz db ⟨some cid, some prev⟩ draw = .ok .falseb
    ∧ ∀ code, play_quiz db ⟨some cid, some prev⟩ draw ≠ .err code := by
  have hmain : play_quiz db ⟨some cid, some prev⟩ draw = .ok .falseb := by
    rw [play_quiz_eq, h]
    norm_num
  exact ⟨hmain, fun code hcontra => by rw [hmain] at hcontra; exact absurd hcontra (by simp)⟩

/-- Witness for `play_quiz_exhausted_false`: on `sampleDB`, asking for
category 1 with all three of its question ids already served yields
`{success: true, question: false}`. -/
theorem play_quiz_exhausted_false_witness :
    play_quiz sampleDB ⟨some 1, some [0, 1, 2]⟩ 0 = .ok .falseb
    ∧ ∀ code, play_quiz sampleDB ⟨some 1, some [0, 1, 2]⟩ 0 ≠ .err code :=
  play_quiz_exhausted_false sampleDB 1 [0, 1, 2] 0 (by decide)

/-- C10: a `POST /quizzes` body lacking the `previous_questions` key (or
lacking `quiz_category.id`) produces the internal error 500 — the handler
reads `body['previous_questions']` unconditionally (raising `KeyError`)
before its `"previous_questions" in body` membership check, so that guard
can never be false when reached, and `handle_exception` maps the
`KeyError` to 500 rather than a 400 or a graceful default. -/
theorem play_quiz_missing_key_500 (db : DB) (body : QuizBody) (draw : Nat) :
    (body.previous_questions = none → play_quiz db body draw = .err 500)
    ∧ (body.quiz_category_id = none → play_quiz db body draw = .err 500) := by
  obtain ⟨qc, pq⟩ := body
  constructor
  · rintro rfl
    cases qc with
    | none => rfl
    | some cid => rfl
  · rintro rfl
    rfl

/-- Witness for `play_quiz_missing_key_500` on `sampleDB`: a body without
`previous_questions` and a body without `quiz_category.id` both give 500. -/
theorem play_quiz_missing_key_500_witness :
    play_quiz sampleDB ⟨some 1, none⟩ 0 = .err 500
    ∧ play_quiz sampleDB ⟨none, some []⟩ 0 = .err 500 :=
  ⟨(play_quiz_missing_key_500 sampleDB ⟨some 1, none⟩ 0).1 rfl,
   (play_quiz_missing_key_500 sampleDB ⟨none, some []⟩ 0).2 rfl⟩

/-- C6: a `POST /questions` whose body carries no non-empty `searchTerm`
and whose `question` or `answer` text is missing or the empty string is
rejected with 422 (`abort(422)`, re-raised by `handle_exception`), and the
stored state is unchanged — no question is inserted. -/
theorem create_question_blank_422 (db : DB) (body : CreateBody) (page : Int)
    (catDraw : Nat) (freshId : Int)
    (hsearch : truthyStr body.searchTerm = false)
    (hblank : body.question = none ∨ body.answer = none ∨
              body.question = some "" ∨ body.answer = some "") :
    create_question db body page catDraw freshId = (.err 422, db) := by
  unfold create_question
  rw [if_neg (by simp [hsearch]), if_pos hblank]

/-- Witness for `create_question_blank_422`: the body
`{question: "", answer: "x", difficulty: 1, category: 1}` gives 422 and
leaves `sampleDB` unchanged. -/
theorem create_question_blank_422_witness :
    create_question sampleDB ⟨some "", some "x", some 1, some 1, none⟩ 1 0 99
      = (.err 422, sampleDB) :=
  create_question_blank_422 sampleDB ⟨some "", some "x", some 1, some 1, none⟩ 1 0 99
    rfl (Or.inr (Or.inr (Or.inl rfl)))

theorem length_insertByKey (key : α → Int) (a : α) (l : List α) :
    (insertByKey key a l).length = l.length + 1 := by
  induction l with
  | nil => rfl
  | cons x xs ih => by_cases h : key a ≤ key x <;> simp [insertByKey, h, ih]

theorem length_sortByKey (key : α → Int) (l : List α) :
    (sortByKey key l).length = l.length := by
  induction l with
  | nil => rfl
  | cons x xs ih => simp [sortByKey, length_insertByKey, ih]

/-- C7: for `GET /categories/{id}/questions`, a missing category gives
404, while an existing category always gives the success response — even
when its question list is empty — with `total_questions` the number of
questions in that category and `currentCategory` that category's type. -/
theorem category_questions_contract (db : DB) (category_id : Int) (page : Int) :
    ((∀ c ∈ db.categories, c.id ≠ category_id) →
        retrieve_specific_category_questions db category_id page = .err 404)
    ∧ (∀ cat, db.categories.find? (fun c => c.id == category_id) = some cat →
        retrieve_specific_category_questions db category_id page
          = .ok (paginate_questions page
                  (sortByKey Question.id
                    (db.questions.filter (fun q => q.category == category_id))))
                (db.questions.filter (fun q => q.category == category_id)).length
                cat.type) := by
  constructor
  · intro h
    unfold retrieve_specific_category_questions
    have hnone : db.categories.find? (fun c => c.id == category_id) = none := by
      rw [List.find?_eq_none]
      intro c hc
      simpa using h c hc
    simp only [hnone]
  · intro cat hcat
    unfold retrieve_specific_category_questions
    simp only [hcat, length_sortByKey]

/-- Witness for `category_questions_contract` on `sampleDB`: category 7
does not exist (404), while category 2 exists with zero questions and is
still a success with an empty list, total 0, and type `"Art"`. -/
theorem category_questions_contract_witness :
    retrieve_specific_category_questions sampleDB 7 1 = .err 404
    ∧ retrieve_specific_category_questions sampleDB 2 1
        = .ok (paginate_questions 1
                (sortByKey Question.id
                  (sampleDB.questions.filter (fun q => q.category == 2))))
              (sampleDB.questions.filter (fun q => q.category == 2)).length
              ({ id := 2, type := "Art" } : Category).type :=
  ⟨(category_questions_contract sampleDB 7 1).1 (by decide),
   (category_questions_contract sampleDB 2 1).2 { id := 2, type := "Art" } (by decide)⟩

/-- C8: for `DELETE /questions/{id}`, a missing question gives 404 and
leaves storage untouched; an existing (unique) question is deleted, and
the response is exactly `retrieve_questions` — the "list questions"
response — computed on the post-deletion state with the page parameter of
the same request. -/
theorem remove_question_contract (db : DB) (question_id : Int) (page : Int)
    (catDraw : Nat) :
    (db.questions.filter (fun q => q.id == question_id) = [] →
        remove_question db question_id page catDraw = (.err 404, db))
    ∧ (∀ q, db.questions.filter (fun x => x.id == question_id) = [q] →
        remove_question db question_id page catDraw
          = (retrieve_questions
               { db with questions := db.questions.eraseP (fun x => x.id == question_id) }
               page catDraw,
             { db with questions := db.questions.eraseP (fun x => x.id == question_id) })) := by
  constructor
  · intro h
    unfold remove_question
    simp only [h]
  · intro q h
    unfold remove_question
    simp only [h]

/-- Witness for `remove_question_contract` on `sampleDB`: deleting the
nonexistent id 5 is a 404 with the state unchanged, and deleting id 1
re-answers with `retrieve_questions` on the two remaining questions. -/
theorem remove_question_contract_witness :
    remove_question sampleDB 5 1 0 = (.err 404, sampleDB)
    ∧ remove_question sampleDB 1 1 0
        = (retrieve_questions
             { sampleDB with
                questions := sampleDB.questions.eraseP (fun x => x.id == 1) } 1 0,
           { sampleDB with
              questions := sampleDB.questions.eraseP (fun x => x.id == 1) }) :=
  ⟨(remove_question_contract sampleDB 5 1 0).1 (by decide),
   (remove_question_contract sampleDB 1 1 0).2
     { id := 1, question := "q", answer := "a", difficulty := 1, category := 1 } (by decide)⟩

/-- A one-question database: deleting its only question empties page 1. -/
def singleDB : DB :=
  { questions := [{ id := 0, question := "q", answer := "a", difficulty := 1, category := 1 }],
    categories := [{ id := 1, type := "Science" }] }

/-- C9: when `DELETE /questions/{id}` finds and deletes the question but
the re-fetched question list has an empty requested page (for example the
deleted question was the only one), the handler answers 404 with
`success: false` even though the deletion has already been committed: the
final state is the post-deletion state, strictly smaller than the original
— the error response does not imply the state is unchanged. -/
theorem remove_question_404_after_commit (db : DB) (question_id : Int) (page : Int)
    (catDraw : Nat) (q : Question)
    (hone : db.questions.filter (fun x => x.id == question_id) = [q])
    (hempty : paginate_questions page
        (sortByKey Question.id (db.questions.eraseP (fun x => x.id == question_id))) = []) :
    remove_question db question_id page catDraw
      = (.err 404, { db with questions := db.questions.eraseP (fun x => x.id == question_id) })
    ∧ (db.questions.eraseP (fun x => x.id == question_id)).length + 1
        = db.questions.length := by
  have hq : q ∈ db.questions.filter (fun x => x.id == question_id) := by
    rw [hone]; exact List.mem_singleton.mpr rfl
  have hq_mem : q ∈ db.questions := (List.mem_filter.mp hq).1
  have hq_p : (q.id == question_id) = true := (List.mem_filter.mp hq).2
  constructor
  · unfold remove_question
    simp only [hone]
    unfold retrieve_questions
    simp only [hempty, List.length_nil, if_pos rfl]
    simp
  · have hlen : (db.questions.eraseP (fun x => x.id == question_id)).length
        = db.questions.length - 1 := List.length_eraseP_of_mem hq_mem hq_p
    have hpos := List.length_pos_of_mem hq_mem
    omega

/-- Witness for `remove_question_404_after_commit`: deleting the only
question of `singleDB` answers 404 while the stored table has really gone
from one question to none. -/
theorem remove_question_404_after_commit_witness :
    remove_question singleDB 0 1 0
      = (.err 404, { singleDB with questions := singleDB.questions.eraseP (fun x => x.id == 0) })
    ∧ (singleDB.questions.eraseP (fun x => x.id == 0)).length + 1
        = singleDB.questions.length :=
  remove_question_404_after_commit singleDB 0 1 0
    { id := 0, question := "q", answer := "a", difficulty := 1, category := 1 }
    (by decide) (by decide)
